import Mathlib

/-!
Shallow embedding of the dataframe diff engine of owid-datautils
(`owid/datautils/dataframes.py` and `owid/datautils/utils.py`).

Dataframes are modelled as ordered lists of named columns over a cell type
with numeric (exact rational), textual and missing values, together with a
row-key index.  Numeric tolerances are rationals.  `np.isclose` and the
pandas truthiness / set operations used by the source are embedded cell by
cell; places where pandas would raise are modelled with `Except`/`Option`.
-/

/-- A cell of a dataframe: a numeric value, a textual value, or missing
(NaN).  Floats are modelled as exact rationals. -/
inductive Cell
  | num (q : ℚ)
  | str (s : String)
  | null
  deriving DecidableEq

/-- The dtype tag of a column, as tested by
`df[col].dtype in (object, "category")` in the source. -/
inductive Dtype
  | numeric
  | object
  | category
  deriving DecidableEq

/-- True for the dtypes that the source compares by exact value equality
(`object` and `"category"`). -/
def Dtype.isTextual : Dtype → Bool
  | Dtype.numeric => false
  | Dtype.object => true
  | Dtype.category => true

/-- A dataframe column: its dtype tag and its cells (aligned with the
dataframe index). -/
structure Column where
  dtype : Dtype
  values : List Cell
  deriving DecidableEq

/-- A pandas dataframe: named index levels, the index (row-key) values,
and the named columns in order. -/
structure DF where
  indexNames : List (Option String)
  index : List Cell
  cols : List (String × Column)
  deriving DecidableEq

/-- The column names of a dataframe, in order (`df.columns.tolist()`). -/
def colNames (df : DF) : List String := df.cols.map (fun p => p.1)

/-- Look a column up by name (`df[col]`); used only where the source
guarantees the column exists. -/
def getColumn (df : DF) (c : String) : Column :=
  ((df.cols.find? (fun p => p.1 == c)).map (fun p => p.2)).getD ⟨Dtype.numeric, []⟩

/-- Whether a cell is missing (`pd.isnull`). -/
def Cell.isNull : Cell → Bool
  | Cell.null => true
  | _ => false

/-- Python truthiness of a cell value, as used by `any(...)` over index
values in the source.  `0` and `""` are falsy; NaN (the missing marker) is
truthy in Python. -/
def Cell.truthy : Cell → Bool
  | Cell.num q => decide (q ≠ 0)
  | Cell.str s => decide (s ≠ "")
  | Cell.null => true

/-- Python `any(...)` over a list of index values. -/
def pyAnyCells (l : List Cell) : Bool := l.any Cell.truthy

/-- Python `any(...)` over a list of column names (a non-empty string is
truthy). -/
def pyAnyStrings (l : List String) : Bool := l.any (fun s => decide (s ≠ ""))

/-- Python `any(...)` over a list of index-level names (`None` is falsy). -/
def pyAnyNames (l : List (Option String)) : Bool :=
  l.any (fun o => match o with
    | none => false
    | some s => decide (s ≠ ""))

/-- Exact value equality of two cells, with any missing operand comparing
unequal.  This is the element-wise behaviour of both `numpy ==` on value
arrays and pandas `DataFrame.eq` for the cells modelled here (NaN compares
unequal to NaN). -/
def cellEq : Cell → Cell → Bool
  | Cell.num x, Cell.num y => decide (x = y)
  | Cell.str s, Cell.str t => decide (s = t)
  | _, _ => false

/-- `np.isclose(a, b, atol, rtol)` on two cells: numeric operands are close
when `|a - b| <= atol + rtol * |b|` (the additive numpy formula, asymmetric
in `b`); any missing or non-numeric operand is not close. -/
def np_isclose (atol rtol : ℚ) (a b : Cell) : Bool :=
  match a, b with
  | Cell.num x, Cell.num y => decide (|x - y| ≤ atol + rtol * |y|)
  | _, _ => false

/-- The numeric cell comparison used by both `compare` and
`HighLevelDiff._diff`: `np.isclose` followed by the both-missing override
(`compared[pd.isnull(a) & pd.isnull(b)] = True`). -/
def tolerantNumericCellEq (atol rtol : ℚ) (a b : Cell) : Bool :=
  if a.isNull && b.isNull then true else np_isclose atol rtol a b

/-- One column of the output of `compare`: textual/categorical columns are
compared by exact equality, numeric ones by `np.isclose`, and in either
case positions where both cells are missing are overwritten with `True`. -/
def compareColumnCells (c1 c2 : Column) (atol rtol : ℚ) : List Bool :=
  List.zipWith
    (fun a b =>
      if a.isNull && b.isNull then true
      else if c1.dtype.isTextual || c2.dtype.isTextual then cellEq a b
      else np_isclose atol rtol a b)
    c1.values c2.values

/-- Python `sorted` on a list of strings. -/
def sortedStrings (l : List String) : List String :=
  List.insertionSort (fun a b => a ≤ b) l

/-- Python set difference `set(l1) - set(l2)` (order irrelevant: every use
in the source sorts the result). -/
def pySetDiff {α : Type} [DecidableEq α] (l1 l2 : List α) : List α :=
  l1.dedup.filter (fun x => decide (x ∉ l2))

/-- Python set intersection `set(l1) & set(l2)`. -/
def pySetInter {α : Type} [DecidableEq α] (l1 l2 : List α) : List α :=
  l1.dedup.filter (fun x => decide (x ∈ l2))

/-- Python set union `set(l1) | set(l2)`. -/
def pySetUnion {α : Type} [DecidableEq α] (l1 l2 : List α) : List α :=
  (l1 ++ l2).dedup

/-- The list of boolean columns returned by the comparison loop of
`compare` (and reused by `are_equal`), for columns present in both
dataframes. -/
def compareDF (df1 df2 : DF) (columns : List String) (atol rtol : ℚ) :
    List (String × List Bool) :=
  columns.map (fun c => (c, compareColumnCells (getColumn df1 c) (getColumn df2 c) atol rtol))

/-- A Python object passed to `compare`: either a dataframe or something
else (the source checks `type(df) != pd.DataFrame`). -/
inductive PdObject
  | dataframe (df : DF)
  | other

/-- Whether the object is a dataframe. -/
def PdObject.isDF : PdObject → Bool
  | PdObject.dataframe _ => true
  | PdObject.other => false

/-- The exceptions `compare` can raise: its two documented errors, plus the
pandas `KeyError` escaping from `df[col]` when an explicitly requested
column is missing. -/
inductive CompareError
  | objectsAreNotDataframes
  | dataFramesHaveDifferentLengths
  | keyError
  deriving DecidableEq

/-- The `compare` function of `dataframes.py`: type check, row-count check,
selection of the columns to compare (common columns when `columns is
None`), then the column-by-column tolerant comparison.  A requested column
missing from either dataframe raises `KeyError` (modelled as
`CompareError.keyError`). -/
def dataframes.compare (o1 o2 : PdObject) (columns : Option (List String)) (atol rtol : ℚ) :
    Except CompareError (List (String × List Bool)) :=
  match o1, o2 with
  | PdObject.dataframe df1, PdObject.dataframe df2 =>
    if df1.index.length ≠ df2.index.length then
      Except.error CompareError.dataFramesHaveDifferentLengths
    else
      let cols := match columns with
        | none => sortedStrings (pySetInter (colNames df1) (colNames df2))
        | some cs => cs
      if cols.all (fun c => decide (c ∈ colNames df1) && decide (c ∈ colNames df2)) then
        Except.ok (compareDF df1 df2 cols atol rtol)
      else
        Except.error CompareError.keyError
  | _, _ => Except.error CompareError.objectsAreNotDataframes

/-- The `are_equal` function of `dataframes.py` (the printed summary and
the `verbose` flag do not affect the returned pair and are omitted).
Returns the `equal` flag and the `compared` dataframe; when the row counts
differ the cell comparison is skipped and `(False, empty)` is returned. -/
def are_equal (df1 df2 : DF) (atol rtol : ℚ) : Bool × List (String × List Bool) :=
  let missing_in_df1 := sortedStrings (pySetDiff (colNames df2) (colNames df1))
  let missing_in_df2 := sortedStrings (pySetDiff (colNames df1) (colNames df2))
  let common_columns := sortedStrings (pySetInter (colNames df1) (colNames df2))
  let all_columns := sortedStrings (pySetUnion (colNames df1) (colNames df2))
  let columns_equal : Bool :=
    if common_columns = all_columns then
      decide (colNames df1 = colNames df2) &&
        common_columns.all (fun c => decide ((getColumn df1 c).dtype = (getColumn df2 c).dtype))
    else false
  let can_be_compared := decide (df1.index.length = df2.index.length)
  let equal0 := missing_in_df1.isEmpty && missing_in_df2.isEmpty && can_be_compared && columns_equal
  if df1.index.length ≠ df2.index.length then (false, [])
  else
    let indexes_equal := !((List.zipWith (fun a b => !(cellEq a b)) df1.index df2.index).any id)
    let compared := compareDF df1 df2 common_columns atol rtol
    let all_values_equal := compared.all (fun p => p.2.all id)
    (equal0 && indexes_equal && all_values_equal, compared)

/-- Default `absolute_tolerance` of `compare` (`1e-8`). -/
def compare_default_absolute_tolerance : ℚ := 1 / 10 ^ 8

/-- Default `relative_tolerance` of `compare` (`1e-8`). -/
def compare_default_relative_tolerance : ℚ := 1 / 10 ^ 8

/-- Default `absolute_tolerance` of `are_equal` (`1e-8`). -/
def are_equal_default_absolute_tolerance : ℚ := 1 / 10 ^ 8

/-- Default `relative_tolerance` of `are_equal` (`1e-8`). -/
def are_equal_default_relative_tolerance : ℚ := 1 / 10 ^ 8

/-- Default `absolute_tolerance` of `HighLevelDiff.__init__` (`1e-08`). -/
def HighLevelDiff_default_absolute_tolerance : ℚ := 1 / 10 ^ 8

/-- Default `relative_tolerance` of `HighLevelDiff.__init__` (`1e-05`). -/
def HighLevelDiff_default_relative_tolerance : ℚ := 1 / 10 ^ 5

/-- Keep the elements of a list selected by a boolean mask, as pandas does
for `df[mask]` row selection and `df.loc[:, mask]` column selection. -/
def applyMask {α : Type} : List Bool → List α → List α
  | true :: ms, x :: xs => x :: applyMask ms xs
  | false :: ms, _ :: xs => applyMask ms xs
  | _, _ => []

/-- Helper for `dupMarks`: marks each key that already occurred among the
keys `seen`. -/
def dupMarksAux : List Cell → List Cell → List Bool
  | _, [] => []
  | seen, k :: ks => decide (k ∈ seen) :: dupMarksAux (k :: seen) ks

/-- `index.duplicated()`: `True` for every occurrence of a key after its
first. -/
def dupMarks (idx : List Cell) : List Bool := dupMarksAux [] idx

/-- `df[df.index.duplicated()].index.values`: the key values at duplicated
positions. -/
def duplicate_index_values (df : DF) : List Cell := applyMask (dupMarks df.index) df.index

/-- `self.difference(other)` on indexes: the unique values of `self` not in
`other`.  (pandas also sorts the result; no claim observes that order.) -/
def indexDifference (self other : List Cell) : List Cell :=
  (self.filter (fun k => decide (k ∉ other))).dedup

/-- `self.intersection(other)` on indexes: the unique values of `self` that
also appear in `other`, in the order of `self`. -/
def indexIntersection (self other : List Cell) : List Cell :=
  (self.filter (fun k => decide (k ∈ other))).dedup

/-- `self.columns_missing_in_df1 = sorted(set(df2.columns) - set(df1.columns))`. -/
def diff_columns_missing_in_df1 (df1 df2 : DF) : List String :=
  sortedStrings (pySetDiff (colNames df2) (colNames df1))

/-- `self.columns_missing_in_df2 = sorted(set(df1.columns) - set(df2.columns))`. -/
def diff_columns_missing_in_df2 (df1 df2 : DF) : List String :=
  sortedStrings (pySetDiff (colNames df1) (colNames df2))

/-- `self.columns_shared = sorted(df1set.intersection(df2set))`. -/
def diff_columns_shared (df1 df2 : DF) : List String :=
  sortedStrings (pySetInter (colNames df1) (colNames df2))

/-- An ordering of index-level names used by `sortedNames`. -/
def nameLe (a b : Option String) : Bool :=
  match a, b with
  | none, _ => true
  | some _, none => false
  | some s, some t => decide (s ≤ t)

/-- Python `sorted` on index-level names, with `None` ordered first.
(Python would raise comparing `None` with a string; no claim depends on
this order.) -/
def sortedNames (l : List (Option String)) : List (Option String) :=
  List.insertionSort (fun a b => nameLe a b = true) l

/-- `self.index_columns_missing_in_df1 = sorted(df2_index_names - df1_index_names)`. -/
def diff_index_columns_missing_in_df1 (df1 df2 : DF) : List (Option String) :=
  sortedNames (pySetDiff df2.indexNames df1.indexNames)

/-- `self.index_columns_missing_in_df2 = sorted(df1_index_names - df2_index_names)`. -/
def diff_index_columns_missing_in_df2 (df1 df2 : DF) : List (Option String) :=
  sortedNames (pySetDiff df1.indexNames df2.indexNames)

/-- `self.index_columns_shared = sorted(df1_index_names.intersection(df2_index_names))`. -/
def diff_index_columns_shared (df1 df2 : DF) : List (Option String) :=
  sortedNames (pySetInter df1.indexNames df2.indexNames)

/-- `self.index_values_missing_in_df1 = self.df2.index.difference(self.df1.index)`. -/
def diff_index_values_missing_in_df1 (df1 df2 : DF) : List Cell :=
  indexDifference df2.index df1.index

/-- `self.index_values_missing_in_df2 = self.df1.index.difference(self.df2.index)`. -/
def diff_index_values_missing_in_df2 (df1 df2 : DF) : List Cell :=
  indexDifference df1.index df2.index

/-- `self.index_values_shared = self.df2.index.intersection(self.df1.index)`. -/
def diff_index_values_shared (df1 df2 : DF) : List Cell :=
  indexIntersection df2.index df1.index

/-- The positions of the rows of an index holding a given key, in order
(what `df.loc[[k]]` selects). -/
def matchPositions (idx : List Cell) (k : Cell) : List ℕ :=
  (List.range idx.length).filter (fun i => decide (idx.getD i Cell.null = k))

/-- The row positions selected by `df.loc[keys]`, key block by key block. -/
def locPositions (idx : List Cell) (keys : List Cell) : List ℕ :=
  keys.flatMap (matchPositions idx)

/-- The cells of one column at the given row positions. -/
def sliceVals (vals : List Cell) (pos : List ℕ) : List Cell :=
  pos.map (fun i => vals.getD i Cell.null)

/-- Per-row `any` over a list of aligned boolean columns
(`diffs.any(axis=1)`), for `n` rows. -/
def rowAnyMask (n : ℕ) (cols : List (List Bool)) : List Bool :=
  (List.range n).map (fun i => cols.any (fun c => c.getD i false))

/-- The sparse value-difference table: the row keys that survive
minimization and, per surviving column, its boolean difference cells. -/
structure DiffTable where
  rowKeys : List Cell
  cols : List (String × List Bool)
  deriving DecidableEq

/-- The per-column difference lists of `HighLevelDiff._diff` over the
shared columns, at the sliced row positions: pandas `eq` for
textual/categorical columns, `np.isclose` plus the both-missing override
for numeric ones, inverted so that `true` means "different". -/
def hldDiffCols (df1 df2 : DF) (atol rtol : ℚ) (shared_cols : List String)
    (pos1 pos2 : List ℕ) : List (String × List Bool) :=
  shared_cols.map (fun c =>
    let d1 := getColumn df1 c
    let d2 := getColumn df2 c
    let eqRow :=
      if d1.dtype.isTextual || d2.dtype.isTextual then
        List.zipWith cellEq (sliceVals d1.values pos1) (sliceVals d2.values pos2)
      else
        List.zipWith (tolerantNumericCellEq atol rtol)
          (sliceVals d1.values pos1) (sliceVals d2.values pos2)
    (c, eqRow.map not))

/-- The minimization step of `_diff` on the inverted difference matrix
(`diffCols`, column-major, `n` rows, sliced index `idx1`): if the matrix
is empty, `value_differences` is `None`; otherwise drop the rows with no
difference (`diffs[diffs.any(axis=1)]`); if nothing with a difference
remains, `None`; otherwise keep only the columns that contain a
difference in the full matrix (`diffs.any(axis=0)`). -/
def hldMinimize (diffCols : List (String × List Bool)) (idx1 : List Cell) (n : ℕ) :
    Option DiffTable :=
  if n = 0 ∨ diffCols.isEmpty then none
  else
    let rmask := rowAnyMask n (diffCols.map (fun p => p.2))
    let keptRows := diffCols.map (fun p => (p.1, applyMask rmask p.2))
    let keptKeys := applyMask rmask idx1
    if keptKeys.isEmpty || !(keptRows.any (fun p => p.2.any id)) then none
    else
      let colMask := diffCols.map (fun p => p.2.any id)
      if !(colMask.any id) then none
      else some ⟨keptKeys, applyMask colMask keptRows⟩

/-- The value-difference computation of `HighLevelDiff._diff`: slice both
dataframes to the shared keys and columns, compare cell-wise
(`hldDiffCols`), then minimize (`hldMinimize`).  The outer `Option` is
`none` when pandas `DataFrame.eq` cannot align the two slices (only
possible with duplicate keys) and raises; the inner `Option` is the
`value_differences` field, `none` when absent. -/
def hldValueDifferences (df1 df2 : DF) (atol rtol : ℚ) : Option (Option DiffTable) :=
  let shared_cols := diff_columns_shared df1 df2
  let shared_keys := diff_index_values_shared df1 df2
  if !shared_cols.isEmpty && pyAnyCells shared_keys then
    let pos1 := locPositions df1.index shared_keys
    let pos2 := locPositions df2.index shared_keys
    let idx1 := pos1.map (fun i => df1.index.getD i Cell.null)
    let idx2 := pos2.map (fun i => df2.index.getD i Cell.null)
    if idx1 ≠ idx2 then none
    else some (hldMinimize (hldDiffCols df1 df2 atol rtol shared_cols pos1 pos2) idx1 pos1.length)
  else some none

/-- The state of a constructed `HighLevelDiff` object after `_diff`. -/
structure HLD where
  columns_missing_in_df1 : List String
  columns_missing_in_df2 : List String
  columns_shared : List String
  index_columns_missing_in_df1 : List (Option String)
  index_columns_missing_in_df2 : List (Option String)
  index_columns_shared : List (Option String)
  index_values_missing_in_df1 : List Cell
  index_values_missing_in_df2 : List Cell
  index_values_shared : List Cell
  duplicate_index_values_in_df1 : List Cell
  duplicate_index_values_in_df2 : List Cell
  value_differences : Option DiffTable

/-- Constructing `HighLevelDiff(df1, df2, atol, rtol)` (which eagerly runs
`_diff`); `none` when construction raises. -/
def HighLevelDiff (df1 df2 : DF) (atol rtol : ℚ) : Option HLD :=
  (hldValueDifferences df1 df2 atol rtol).map (fun vd =>
    { columns_missing_in_df1 := diff_columns_missing_in_df1 df1 df2
      columns_missing_in_df2 := diff_columns_missing_in_df2 df1 df2
      columns_shared := diff_columns_shared df1 df2
      index_columns_missing_in_df1 := diff_index_columns_missing_in_df1 df1 df2
      index_columns_missing_in_df2 := diff_index_columns_missing_in_df2 df1 df2
      index_columns_shared := diff_index_columns_shared df1 df2
      index_values_missing_in_df1 := diff_index_values_missing_in_df1 df1 df2
      index_values_missing_in_df2 := diff_index_values_missing_in_df2 df1 df2
      index_values_shared := diff_index_values_shared df1 df2
      duplicate_index_values_in_df1 := duplicate_index_values df1
      duplicate_index_values_in_df2 := duplicate_index_values df2
      value_differences := vd })

/-- The `are_structurally_equal` property: `not (any(...) or ... )` over
the stored difference lists, using Python truthiness of their elements. -/
def HLD.are_structurally_equal (h : HLD) : Bool :=
  !(pyAnyStrings h.columns_missing_in_df1 ||
    pyAnyStrings h.columns_missing_in_df2 ||
    pyAnyNames h.index_columns_missing_in_df1 ||
    pyAnyNames h.index_columns_missing_in_df2 ||
    pyAnyCells h.index_values_missing_in_df1 ||
    pyAnyCells h.index_values_missing_in_df2 ||
    pyAnyCells h.duplicate_index_values_in_df1 ||
    pyAnyCells h.duplicate_index_values_in_df2)

/-- The `are_overlapping_values_equal` property. -/
def HLD.are_overlapping_values_equal (h : HLD) : Bool :=
  h.value_differences.isNone

/-- The `are_equal` property of `HighLevelDiff`. -/
def HLD.are_equal (h : HLD) : Bool :=
  h.are_structurally_equal && h.are_overlapping_values_equal

/-- `get_list_description_with_max_length` of `utils.py`, for integer
items: a comma-separated rendering, shortened in the middle (with the
source's literal `"` after the ellipsis) when there are more than
`max_items` items. -/
def get_list_description_with_max_length (items : List ℤ) (max_items : ℕ) : String :=
  if items.length > max_items then
    "[" ++ toString items.length ++ " items] "
      ++ String.intercalate ", " ((items.take (max_items / 2)).map toString)
      ++ " ... \""
      ++ String.intercalate ", " ((items.drop (items.length - max_items / 2)).map toString)
  else
    String.intercalate ", " (items.map toString)

/-- `get_compact_list_description` of `utils.py`, specialised to lists of
integers (the all-`int` branch of the source, which is the one the claim
concerns).  `set(...)` is modelled by `dedup`; its iteration order is
irrelevant because every branch sorts. -/
def get_compact_list_description (items_iterable : List ℤ) (max_items : ℕ) : List String :=
  let items := items_iterable.dedup
  if items.isEmpty then ["[]"]
  else
    let sorted_items := List.insertionSort (fun a b => a ≤ b) items
    (if items.length = 1 then [toString (sorted_items.getD 0 0)] else [])
    ++ (if items.length = 2 then
          [toString (sorted_items.getD 0 0) ++ ", " ++ toString (sorted_items.getD 1 0)]
        else [])
    ++ (if items.length > 2 then
          [if (items.length : ℤ) = sorted_items.getLastD 0 - sorted_items.getD 0 0 then
             toString (sorted_items.getD 0 0) ++ "-" ++ toString (sorted_items.getLastD 0)
           else get_list_description_with_max_length sorted_items max_items]
        else [])

/-- Modelled from the spec's words (§4.1, claim C1): the "isclose"
semantics the spec prescribes, `|a - b| <= max(abs_tol, rel_tol * |b|)`,
to be compared with the additive formula the source actually uses. -/
def isclose_spec_max (atol rtol a b : ℚ) : Bool :=
  decide (|a - b| ≤ max atol (rtol * |b|))

/-- Concrete dataframes used by witnesses and counterexamples below. -/
def dfOneA : DF := ⟨[none], [Cell.num 1], [("a", ⟨Dtype.numeric, [Cell.num 1]⟩)]⟩

/-- A dataframe sharing no column name with `dfOneA`. -/
def dfOneB : DF := ⟨[none], [Cell.num 1], [("b", ⟨Dtype.numeric, [Cell.num 1]⟩)]⟩

/-- Like `dfOneA` but with a different value in column `a`. -/
def dfOneA2 : DF := ⟨[none], [Cell.num 1], [("a", ⟨Dtype.numeric, [Cell.num 2]⟩)]⟩

/-- A dataframe whose only (object-dtype) column holds a single missing
value, at index value `1`. -/
def dfObjNull : DF := ⟨[none], [Cell.num 1], [("a", ⟨Dtype.object, [Cell.null]⟩)]⟩

/-- A dataframe with the duplicated index value `1`. -/
def dfDupIdx : DF := ⟨[none], [Cell.num 1, Cell.num 1],
  [("a", ⟨Dtype.numeric, [Cell.num 1, Cell.num 2]⟩)]⟩

/-- `{"a": [1, 2]}` with index `[0, 1]`. -/
def dfIdx01 : DF := ⟨[none], [Cell.num 0, Cell.num 1],
  [("a", ⟨Dtype.numeric, [Cell.num 1, Cell.num 2]⟩)]⟩

/-- `{"a": [2]}` with index `[1]`: its index is missing the value `0` of
`dfIdx01`. -/
def dfIdx1 : DF := ⟨[none], [Cell.num 1], [("a", ⟨Dtype.numeric, [Cell.num 2]⟩)]⟩

/-- Whether a cell holds a numeric value. -/
def Cell.isNum : Cell → Bool
  | Cell.num _ => true
  | _ => false

/-- Well-formedness invariants pandas guarantees for every dataframe:
each column has exactly one cell per index entry, and a numeric-dtype
column holds only numeric or missing cells. -/
def WF (df : DF) : Bool :=
  df.cols.all (fun p =>
    decide (p.2.values.length = df.index.length) &&
    (match p.2.dtype with
     | Dtype.numeric => p.2.values.all (fun v => v.isNull || v.isNum)
     | _ => true))

/-- No missing values in the textual/categorical columns of a dataframe. -/
def noTextualNulls (df : DF) : Bool :=
  df.cols.all (fun p => !p.2.dtype.isTextual || p.2.values.all (fun v => !v.isNull))

/-- C2: a cell where both dataframes hold a missing value in an
object-dtype column appears in `value_differences` (here the two
dataframes are identical, with a single both-null cell), even though
`compare` on the same dataframes reports that cell as equal.  The claim
(and the class docstring "It assumes that all nans are identical") says a
both-null cell is always reported equal; `_diff` applies the both-missing
override only to numeric columns. -/
theorem hld_bothnull_object_cell_reported_different :
    (HighLevelDiff dfObjNull dfObjNull 0 0).map HLD.value_differences
      = some (some ⟨[Cell.num 1], [("a", [true])]⟩)
    ∧ dataframes.compare (PdObject.dataframe dfObjNull) (PdObject.dataframe dfObjNull) none 0 0
      = Except.ok [("a", [true])] := by
  constructor
  · with_unfolding_all rfl
  · with_unfolding_all rfl

/-- C6: with `df1 = {"a": [1, 2]}` over index `[0, 1]` and
`df2 = {"a": [2]}` over index `[1]`, the index value `0` is missing in
`df2` (`index_values_missing_in_df2 = [0]` is non-empty), yet
`are_structurally_equal` is `True`, because the property tests the lists
with Python `any(...)` and the value `0` is falsy.  The claim says
`are_structurally_equal` is `True` only if all the difference lists are
empty. -/
theorem structurally_equal_true_despite_missing_index_value :
    (HighLevelDiff dfIdx01 dfIdx1 0 0).map
        (fun h => (h.are_structurally_equal, h.index_values_missing_in_df2))
      = some (true, [Cell.num 0]) := by
  with_unfolding_all rfl

/-- C8 counterexample: the default `relative_tolerance` of
`HighLevelDiff.__init__` is `1e-05`, not the `1e-8` the claim states for
every diff operation. -/
theorem hld_default_relative_tolerance_not_1e8 :
    HighLevelDiff_default_relative_tolerance ≠ 1 / 10 ^ 8 := by
  with_unfolding_all decide

/-- C8 (amended): `compare` and `are_equal` default both tolerances to
`1e-8`, while the `HighLevelDiff` constructor defaults
`absolute_tolerance` to `1e-8` and `relative_tolerance` to `1e-05`. -/
theorem default_tolerances_values :
    compare_default_absolute_tolerance = 1 / 10 ^ 8
    ∧ compare_default_relative_tolerance = 1 / 10 ^ 8
    ∧ are_equal_default_absolute_tolerance = 1 / 10 ^ 8
    ∧ are_equal_default_relative_tolerance = 1 / 10 ^ 8
    ∧ HighLevelDiff_default_absolute_tolerance = 1 / 10 ^ 8
    ∧ HighLevelDiff_default_relative_tolerance = 1 / 10 ^ 5 := by
  refine ⟨rfl, rfl, rfl, rfl, rfl, rfl⟩

/-- C9: the contiguous list `[1, 2, 3]` (more than two distinct integers,
consecutive values differing by 1) is rendered as the enumerated list
`"1, 2, 3"`, not as the range `"1-3"` the claim (and the function's own
docstring) require; the range form is instead produced for the
non-contiguous list `[1, 2, 4]`, because the source tests
`len(items) == last - first` instead of `last - first + 1`. -/
theorem compact_list_description_contiguous_not_range :
    get_compact_list_description [1, 2, 3] 20 = ["1, 2, 3"]
    ∧ get_compact_list_description [1, 2, 4] 20 = ["1-4"] := by
  constructor
  · with_unfolding_all rfl
  · with_unfolding_all rfl

/-- C1 counterexample: with `abs_tol = rel_tol = 1`, the cell pair
`a = 5/2` (df1), `b = 1` (df2) in a numeric column is declared equal by
`compare` (numpy: `|a-b| = 3/2 <= atol + rtol*|b| = 2`), although the
claim's formula `|a - b| <= max(abs_tol, rel_tol * |b|) = 1` declares it
unequal. -/
theorem compare_tolerance_not_max_form :
    compareColumnCells ⟨Dtype.numeric, [Cell.num (5 / 2)]⟩ ⟨Dtype.numeric, [Cell.num 1]⟩ 1 1
      = [true]
    ∧ isclose_spec_max 1 1 (5 / 2) 1 = false := by
  constructor
  · with_unfolding_all rfl
  · with_unfolding_all rfl

/-- C3 counterexample: for the dataframe `{"a": [1, 2]}` with duplicated
index `[1, 1]`, diffing it against an identical copy of itself (with
tolerances `0 ≥ 0`) yields `are_equal == False`, because the duplicated
index value makes the pair structurally unequal. -/
theorem hld_reflexivity_fails_on_duplicate_index :
    (HighLevelDiff dfDupIdx dfDupIdx 0 0).map HLD.are_equal = some false := by
  with_unfolding_all rfl

/-- C7 counterexample: with both arguments dataframes of equal length but
a requested column `"z"` absent from them, `compare` raises (pandas
`KeyError`) instead of returning a boolean dataframe, although neither of
the two distinguished errors applies. -/
theorem compare_raises_keyerror_on_missing_column :
    dataframes.compare (PdObject.dataframe dfOneA) (PdObject.dataframe dfOneA) (some ["z"]) 0 0
      = Except.error CompareError.keyError := by
  with_unfolding_all rfl

lemma mem_sortedStrings {c : String} {l : List String} : c ∈ sortedStrings l ↔ c ∈ l :=
  (List.perm_insertionSort _ l).mem_iff

lemma mem_pySetInter {α : Type} [DecidableEq α] {x : α} {l1 l2 : List α} :
    x ∈ pySetInter l1 l2 ↔ x ∈ l1 ∧ x ∈ l2 := by
  simp [pySetInter, List.mem_filter, List.mem_dedup]

lemma pySetDiff_self {α : Type} [DecidableEq α] (l : List α) : pySetDiff l l = [] := by
  simp [pySetDiff, List.filter_eq_nil_iff]

lemma sortedStrings_nil : sortedStrings [] = [] := rfl

lemma sortedNames_nil : sortedNames [] = [] := rfl

lemma indexDifference_self (l : List Cell) : indexDifference l l = [] := by
  simp [indexDifference, List.filter_eq_nil_iff]

lemma zipWith_getElem?_of {α β γ : Type} (f : α → β → γ) :
    ∀ (as : List α) (bs : List β) (i : ℕ) (a : α) (b : β),
      as[i]? = some a → bs[i]? = some b → (List.zipWith f as bs)[i]? = some (f a b) := by
  intro as bs i a b ha hb
  rw [List.getElem?_zipWith, ha, hb]

lemma mem_applyMask {α : Type} :
    ∀ (ms : List Bool) (xs : List α) (x : α),
      x ∈ applyMask ms xs ↔ ∃ i : ℕ, ms[i]? = some true ∧ xs[i]? = some x := by
  intro ms
  induction ms with
  | nil =>
    intro xs x
    simp [applyMask]
  | cons b ms ih =>
    intro xs x
    cases xs with
    | nil =>
      cases b <;> simp [applyMask]
    | cons x0 xs =>
      cases b with
      | false =>
        simp only [applyMask, ih]
        constructor
        · rintro ⟨i, h1, h2⟩
          exact ⟨i + 1, by simpa using h1, by simpa using h2⟩
        · rintro ⟨i, h1, h2⟩
          cases i with
          | zero => simp at h1
          | succ i => exact ⟨i, by simpa using h1, by simpa using h2⟩
      | true =>
        simp only [applyMask, List.mem_cons, ih]
        constructor
        · rintro (h | ⟨i, h1, h2⟩)
          · exact ⟨0, by simp, by simp [h]⟩
          · exact ⟨i + 1, by simpa using h1, by simpa using h2⟩
        · rintro ⟨i, h1, h2⟩
          cases i with
          | zero => exact Or.inl (by simpa using h2.symm)
          | succ i => exact Or.inr ⟨i, by simpa using h1, by simpa using h2⟩

lemma applyMask_eq_nil {α : Type} :
    ∀ (ms : List Bool) (xs : List α), (∀ b ∈ ms, b = false) → applyMask ms xs = [] := by
  intro ms
  induction ms with
  | nil => intro xs _; cases xs <;> rfl
  | cons b ms ih =>
    intro xs h
    have hb : b = false := h b (List.mem_cons_self b ms)
    subst hb
    cases xs with
    | nil => rfl
    | cons x0 xs => exact ih xs (fun c hc => h c (List.mem_cons_of_mem _ hc))

lemma applyMask_getElem?_corr {α : Type} :
    ∀ (ms : List Bool) (xs : List α) (j : ℕ) (x : α),
      (applyMask ms xs)[j]? = some x →
      ∃ i : ℕ, ms[i]? = some true ∧ xs[i]? = some x ∧
        ∀ {β : Type} (ys : List β), ys.length = xs.length →
          (applyMask ms ys)[j]? = ys[i]? := by
  intro ms
  induction ms with
  | nil =>
    intro xs j x h
    simp [applyMask] at h
  | cons b ms ih =>
    intro xs j x h
    cases xs with
    | nil =>
      cases b <;> simp [applyMask] at h
    | cons x0 xs =>
      cases b with
      | false =>
        have h2 : (applyMask ms xs)[j]? = some x := by simpa [applyMask] using h
        obtain ⟨i, h1, hx, hcorr⟩ := ih xs j x h2
        refine ⟨i + 1, by simpa using h1, by simpa using hx, ?_⟩
        intro β ys hlen
        cases ys with
        | nil => simp at hlen
        | cons y0 ys =>
          have : (applyMask ms ys)[j]? = ys[i]? := hcorr ys (by simpa using hlen)
          simpa [applyMask] using this
      | true =>
        cases j with
        | zero =>
          have hx : x0 = x := by simpa [applyMask] using h
          refine ⟨0, by simp, by simp [hx], ?_⟩
          intro β ys hlen
          cases ys with
          | nil => simp at hlen
          | cons y0 ys => simp [applyMask]
        | succ j =>
          have h2 : (applyMask ms xs)[j]? = some x := by simpa [applyMask] using h
          obtain ⟨i, h1, hx, hcorr⟩ := ih xs j x h2
          refine ⟨i + 1, by simpa using h1, by simpa using hx, ?_⟩
          intro β ys hlen
          cases ys with
          | nil => simp at hlen
          | cons y0 ys =>
            have : (applyMask ms ys)[j]? = ys[i]? := hcorr ys (by simpa using hlen)
            simpa [applyMask] using this

lemma getD_false_eq_true_iff (l : List Bool) (i : ℕ) :
    l.getD i false = true ↔ l[i]? = some true := by
  rw [List.getD_eq_getElem?_getD]
  cases h : l[i]? with
  | none => simp
  | some b => cases b <;> simp

lemma rowAnyMask_getElem? (n : ℕ) (cols : List (List Bool)) (i : ℕ) (hi : i < n) :
    (rowAnyMask n cols)[i]? = some (cols.any (fun c => c.getD i false)) := by
  simp [rowAnyMask, List.getElem?_map, List.getElem?_range, hi]

/-- C10: when the two dataframes have different numbers of rows,
`are_equal` does not raise: it returns `(False, empty)` and skips the
cell-by-cell comparison entirely. -/
theorem are_equal_length_mismatch_returns_false_empty
    (df1 df2 : DF) (atol rtol : ℚ) (h : df1.index.length ≠ df2.index.length) :
    are_equal df1 df2 atol rtol = (false, []) := by
  simp only [are_equal]
  rw [if_pos h]

/-- C10 witness: `are_equal` on one-row and two-row dataframes. -/
theorem are_equal_length_mismatch_returns_false_empty_witness :
    are_equal dfOneA dfIdx01 0 0 = (false, []) :=
  are_equal_length_mismatch_returns_false_empty dfOneA dfIdx01 0 0 (by decide)

/-- C5: if the two dataframes share no column or share no index value,
then `value_differences` of the constructed `HighLevelDiff` is `None` (the
cell-wise diff is not computed). -/
theorem value_differences_none_without_overlap
    (df1 df2 : DF) (atol rtol : ℚ)
    (h : diff_columns_shared df1 df2 = [] ∨ diff_index_values_shared df1 df2 = []) :
    (HighLevelDiff df1 df2 atol rtol).map HLD.value_differences = some none := by
  have hg : (!(diff_columns_shared df1 df2).isEmpty
      && pyAnyCells (diff_index_values_shared df1 df2)) = false := by
    rcases h with h | h <;> simp [h, pyAnyCells]
  simp [HighLevelDiff, hldValueDifferences, hg]

/-- C5 witness: two dataframes with disjoint column sets. -/
theorem value_differences_none_without_overlap_witness :
    (HighLevelDiff dfOneA dfOneB 0 0).map HLD.value_differences = some none :=
  value_differences_none_without_overlap dfOneA dfOneB 0 0 (Or.inl (by decide))

/-- C1 (amended): for numeric columns and any tolerances `>= 0`, both the
per-cell comparison of `compare` and the numeric cell comparison of
`HighLevelDiff._diff` declare `a` (df1) and `b` (df2) equal exactly when
`|a - b| <= abs_tol + rel_tol * |b|` (the additive numpy formula), the
relative tolerance scaling against the second operand `b` only. -/
theorem compare_numeric_tolerance_additive
    (atol rtol : ℚ) (as bs : List ℚ) (i : ℕ) (a b : ℚ)
    (hatol : 0 ≤ atol) (hrtol : 0 ≤ rtol)
    (ha : as[i]? = some a) (hb : bs[i]? = some b) :
    (compareColumnCells ⟨Dtype.numeric, as.map Cell.num⟩ ⟨Dtype.numeric, bs.map Cell.num⟩
        atol rtol)[i]?
      = some (decide (|a - b| ≤ atol + rtol * |b|))
    ∧ tolerantNumericCellEq atol rtol (Cell.num a) (Cell.num b)
      = decide (|a - b| ≤ atol + rtol * |b|) := by
  constructor
  · have ha2 : (as.map Cell.num)[i]? = some (Cell.num a) := by
      rw [List.getElem?_map, ha]; rfl
    have hb2 : (bs.map Cell.num)[i]? = some (Cell.num b) := by
      rw [List.getElem?_map, hb]; rfl
    rw [compareColumnCells, zipWith_getElem?_of _ _ _ _ _ _ ha2 hb2]
    simp [Cell.isNull, Dtype.isTextual, np_isclose]
  · simp [tolerantNumericCellEq, Cell.isNull, np_isclose]

/-- C1 witness: position 0 of the numeric columns `[2]` and `[1]` with
both tolerances `1`. -/
theorem compare_numeric_tolerance_additive_witness :
    (0 : ℚ) ≤ 1 ∧
    ((compareColumnCells ⟨Dtype.numeric, [(2 : ℚ)].map Cell.num⟩
          ⟨Dtype.numeric, [(1 : ℚ)].map Cell.num⟩ 1 1)[0]?
        = some (decide (|(2 : ℚ) - 1| ≤ 1 + 1 * |(1 : ℚ)|))
      ∧ tolerantNumericCellEq 1 1 (Cell.num 2) (Cell.num 1)
        = decide (|(2 : ℚ) - 1| ≤ 1 + 1 * |(1 : ℚ)|)) :=
  ⟨by norm_num,
   compare_numeric_tolerance_additive 1 1 [2] [1] 0 2 1 (by norm_num) (by norm_num) rfl rfl⟩

/-- C7 (amended): `compare` raises `ObjectsAreNotDataframes` iff at least
one argument is not a dataframe; given two dataframes it raises
`DataFramesHaveDifferentLengths` iff their row counts differ; and given
two dataframes of equal row count whose explicitly requested columns (if
any) all exist in both, it returns a boolean dataframe without raising. -/
theorem compare_error_classification :
    (∀ (o1 o2 : PdObject) (columns : Option (List String)) (atol rtol : ℚ),
      dataframes.compare o1 o2 columns atol rtol = Except.error CompareError.objectsAreNotDataframes
        ↔ (o1.isDF = false ∨ o2.isDF = false))
    ∧ (∀ (df1 df2 : DF) (columns : Option (List String)) (atol rtol : ℚ),
      dataframes.compare (PdObject.dataframe df1) (PdObject.dataframe df2) columns atol rtol
          = Except.error CompareError.dataFramesHaveDifferentLengths
        ↔ df1.index.length ≠ df2.index.length)
    ∧ (∀ (df1 df2 : DF) (columns : Option (List String)) (atol rtol : ℚ),
      df1.index.length = df2.index.length →
      (∀ cs, columns = some cs → ∀ c ∈ cs, c ∈ colNames df1 ∧ c ∈ colNames df2) →
      ∃ r, dataframes.compare (PdObject.dataframe df1) (PdObject.dataframe df2) columns atol rtol
        = Except.ok r) := by
  refine ⟨?_, ?_, ?_⟩
  · intro o1 o2 columns atol rtol
    cases o1 with
    | other => simp [dataframes.compare, PdObject.isDF]
    | dataframe df1 =>
      cases o2 with
      | other => simp [dataframes.compare, PdObject.isDF]
      | dataframe df2 =>
        simp only [dataframes.compare, PdObject.isDF]
        constructor
        · intro h
          split at h
          · simp at h
          · split at h <;> simp at h
        · intro h
          rcases h with h | h <;> simp at h
  · intro df1 df2 columns atol rtol
    simp only [dataframes.compare]
    constructor
    · intro h
      by_contra hne
      rw [if_neg (fun hc => hc hne)] at h
      split at h <;> simp at h
    · intro h
      rw [if_pos h]
  · intro df1 df2 columns atol rtol hlen hcols
    simp only [dataframes.compare]
    rw [if_neg (by simp [hlen])]
    have hall : (match columns with
        | none => sortedStrings (pySetInter (colNames df1) (colNames df2))
        | some cs => cs).all
          (fun c => decide (c ∈ colNames df1) && decide (c ∈ colNames df2)) = true := by
      rw [List.all_eq_true]
      intro c hc
      cases columns with
      | none =>
        simp only at hc
        have := mem_pySetInter.mp (mem_sortedStrings.mp hc)
        simp [this.1, this.2]
      | some cs =>
        have := hcols cs rfl c hc
        simp [this.1, this.2]
    rw [hall]
    exact ⟨_, rfl⟩

/-- C7 witness: two equal-length dataframes compared on their common
columns return a boolean dataframe. -/
theorem compare_error_classification_witness :
    ∃ r, dataframes.compare (PdObject.dataframe dfOneA) (PdObject.dataframe dfOneA) none 0 0
      = Except.ok r :=
  compare_error_classification.2.2 dfOneA dfOneA none 0 0 rfl
    (fun cs h => by cases h)

lemma rowAnyMask_length (n : ℕ) (cols : List (List Bool)) : (rowAnyMask n cols).length = n := by
  simp [rowAnyMask]

lemma hldMinimize_spec (diffCols : List (String × List Bool)) (idx1 : List Cell) (n : ℕ)
    (vd : DiffTable)
    (hlen : ∀ p ∈ diffCols, p.2.length = n) (hidx : idx1.length = n)
    (h : hldMinimize diffCols idx1 n = some vd) :
    (∀ p ∈ vd.cols, p.2.any id = true)
    ∧ (∀ j : ℕ, j < vd.rowKeys.length → ∃ p ∈ vd.cols, p.2[j]? = some true) := by
  simp only [hldMinimize] at h
  split at h
  · simp at h
  split at h
  · simp at h
  split at h
  · simp at h
  rw [Option.some_inj] at h
  subst h
  set rmask := rowAnyMask n (diffCols.map (fun p => p.2)) with hrmask
  constructor
  · intro p hp
    rw [mem_applyMask] at hp
    obtain ⟨j, hcm, hkr⟩ := hp
    rw [List.getElem?_map] at hcm hkr
    cases hq : diffCols[j]? with
    | none => rw [hq] at hcm; simp at hcm
    | some q =>
      rw [hq] at hcm hkr
      simp only [Option.map_some'] at hcm hkr
      have hqany : q.2.any id = true := by simpa using hcm
      have hpq : p = (q.1, applyMask rmask q.2) := by
        have := hkr
        simp at this
        exact this.symm
      obtain ⟨v, hv, hvid⟩ := List.any_eq_true.mp hqany
      have hvtrue : v = true := by simpa using hvid
      subst hvtrue
      obtain ⟨i, hi⟩ := List.mem_iff_getElem?.mp hv
      have hqmem : q ∈ diffCols := by
        exact List.mem_iff_getElem?.mpr ⟨j, hq⟩
      have hin : i < n := by
        obtain ⟨hlt, _⟩ := List.getElem?_eq_some.mp hi
        rw [hlen q hqmem] at hlt
        exact hlt
      have hrm : rmask[i]? = some true := by
        rw [hrmask, rowAnyMask_getElem? n _ i hin]
        congr 1
        rw [List.any_eq_true]
        exact ⟨q.2, List.mem_map_of_mem _ hqmem, (getD_false_eq_true_iff q.2 i).mpr hi⟩
      have : true ∈ applyMask rmask q.2 := (mem_applyMask _ _ _).mpr ⟨i, hrm, hi⟩
      rw [hpq]
      exact List.any_eq_true.mpr ⟨true, this, rfl⟩
  · intro j hj
    obtain ⟨x, hx⟩ : ∃ x, (applyMask rmask idx1)[j]? = some x :=
      ⟨_, List.getElem?_eq_getElem hj⟩
    obtain ⟨i, hrm, hxi, hcorr⟩ := applyMask_getElem?_corr rmask idx1 j x hx
    have hin : i < n := by
      obtain ⟨hlt, _⟩ := List.getElem?_eq_some.mp hrm
      rw [rowAnyMask_length] at hlt
      exact hlt
    have hany : (diffCols.map (fun p => p.2)).any (fun c => c.getD i false) = true := by
      have := hrm
      rw [hrmask, rowAnyMask_getElem? n _ i hin] at this
      simpa using this
    obtain ⟨cvals, hcmem, hcval⟩ := List.any_eq_true.mp hany
    obtain ⟨q, hqmem, hq2⟩ := List.mem_map.mp hcmem
    obtain ⟨jq, hjq⟩ := List.mem_iff_getElem?.mp hqmem
    have hqi : q.2[i]? = some true := by
      rw [getD_false_eq_true_iff] at hcval
      rw [hq2]
      exact hcval
    refine ⟨(q.1, applyMask rmask q.2), ?_, ?_⟩
    · rw [mem_applyMask]
      refine ⟨jq, ?_, ?_⟩
      · rw [List.getElem?_map, hjq]
        simp only [Option.map_some']
        congr 2
        exact List.any_eq_true.mpr ⟨true, List.mem_iff_getElem?.mpr ⟨i, hqi⟩, rfl⟩
      · rw [List.getElem?_map, hjq]
        rfl
    · rw [hcorr q.2 (by rw [hlen q hqmem, hidx])]
      exact hqi

lemma hldDiffCols_length (df1 df2 : DF) (atol rtol : ℚ) (shared_cols : List String)
    (pos1 pos2 : List ℕ) (hpos : pos2.length = pos1.length) :
    ∀ p ∈ hldDiffCols df1 df2 atol rtol shared_cols pos1 pos2, p.2.length = pos1.length := by
  intro p hp
  obtain ⟨c, hc, rfl⟩ := List.mem_map.mp hp
  simp only [List.length_map]
  split <;> simp [sliceVals, List.length_zipWith, List.length_map, hpos]

/-- C4: for every constructed `HighLevelDiff` whose `value_differences` is
present, every column of `value_differences` contains at least one `True`
(different) cell and every row position contains at least one `True` cell:
no all-equal row and no all-equal column survives the minimization. -/
theorem value_differences_rows_cols_minimized
    (df1 df2 : DF) (atol rtol : ℚ) (vd : DiffTable)
    (h : (HighLevelDiff df1 df2 atol rtol).map HLD.value_differences = some (some vd)) :
    (∀ p ∈ vd.cols, p.2.any id = true)
    ∧ (∀ j : ℕ, j < vd.rowKeys.length → ∃ p ∈ vd.cols, p.2[j]? = some true) := by
  have h2 : hldValueDifferences df1 df2 atol rtol = some (some vd) := by
    cases hv : hldValueDifferences df1 df2 atol rtol with
    | none => simp [HighLevelDiff, hv] at h
    | some x =>
      simp only [HighLevelDiff, hv, Option.map_some'] at h
      simpa using h
  simp only [hldValueDifferences] at h2
  split at h2
  · split at h2
    · simp at h2
    next hne =>
      have hidx12 := not_ne_iff.mp hne
      rw [Option.some_inj] at h2
      have hpos : (locPositions df2.index (diff_index_values_shared df1 df2)).length
          = (locPositions df1.index (diff_index_values_shared df1 df2)).length := by
        have := congrArg List.length hidx12
        simpa [List.length_map] using this.symm
      exact hldMinimize_spec _ _ _ vd
        (hldDiffCols_length df1 df2 atol rtol _ _ _ hpos)
        (List.length_map _ _) h2
  · simp at h2

/-- C4 witness: diffing `{"a": [1]}` against `{"a": [2]}` over index `[1]`
yields the one-cell difference table, whose single row and single column
each contain a `True`. -/
theorem value_differences_rows_cols_minimized_witness :
    (∀ p ∈ (⟨[Cell.num 1], [("a", [true])]⟩ : DiffTable).cols, p.2.any id = true)
    ∧ (∀ j : ℕ, j < (⟨[Cell.num 1], [("a", [true])]⟩ : DiffTable).rowKeys.length →
        ∃ p ∈ (⟨[Cell.num 1], [("a", [true])]⟩ : DiffTable).cols, p.2[j]? = some true) :=
  value_differences_rows_cols_minimized dfOneA dfOneA2 0 0 ⟨[Cell.num 1], [("a", [true])]⟩
    (by with_unfolding_all rfl)

lemma getColumn_spec (df : DF) (c : String) (h : c ∈ colNames df) :
    ∃ q ∈ df.cols, q.1 = c ∧ getColumn df c = q.2 := by
  obtain ⟨q0, hq0, hq0c⟩ := List.mem_map.mp h
  have hex : ∃ x ∈ df.cols, (fun p => p.1 == c) x = true := ⟨q0, hq0, by simp [hq0c]⟩
  obtain ⟨q, hfind⟩ := Option.isSome_iff_exists.mp (List.find?_isSome.mpr hex)
  refine ⟨q, List.mem_of_find?_eq_some hfind, ?_, ?_⟩
  · have := List.find?_some hfind
    simpa using this
  · simp [getColumn, hfind]

lemma zipWith_same_mem {α β : Type} (f : α → α → β) :
    ∀ (l : List α) (e : β), e ∈ List.zipWith f l l → ∃ x ∈ l, e = f x x := by
  intro l
  induction l with
  | nil => intro e he; simp at he
  | cons x xs ih =>
    intro e he
    rw [List.zipWith_cons_cons, List.mem_cons] at he
    rcases he with he | he
    · exact ⟨x, List.mem_cons_self x xs, he⟩
    · obtain ⟨y, hy, hey⟩ := ih e he
      exact ⟨y, List.mem_cons_of_mem _ hy, hey⟩

lemma sliceVals_mem_of {vals : List Cell} {idx : List Cell} {keys : List Cell} {x : Cell}
    (hlen : vals.length = idx.length)
    (hx : x ∈ sliceVals vals (locPositions idx keys)) : x ∈ vals := by
  obtain ⟨i, hi, rfl⟩ := List.mem_map.mp hx
  obtain ⟨k, hk, hik⟩ := List.mem_flatMap.mp hi
  have hilt : i < idx.length := by
    have := (List.mem_filter.mp hik).1
    exact List.mem_range.mp this
  have hilt2 : i < vals.length := by rw [hlen]; exact hilt
  rw [List.getD_eq_getElem?_getD, List.getElem?_eq_getElem hilt2]
  exact List.getElem_mem hilt2

lemma getD_false_of_all_false {l : List Bool} (h : ∀ b ∈ l, b = false) (i : ℕ) :
    l.getD i false = false := by
  rw [List.getD_eq_getElem?_getD]
  cases hc : l[i]? with
  | none => rfl
  | some b =>
    have : b ∈ l := List.mem_iff_getElem?.mpr ⟨i, hc⟩
    simp [h b this]

lemma hldMinimize_none_of_all_false (diffCols : List (String × List Bool))
    (idx1 : List Cell) (n : ℕ)
    (hall : ∀ p ∈ diffCols, ∀ b ∈ p.2, b = false) :
    hldMinimize diffCols idx1 n = none := by
  simp only [hldMinimize]
  split
  · rfl
  · have hrm : ∀ b ∈ rowAnyMask n (diffCols.map (fun p => p.2)), b = false := by
      intro b hb
      simp only [rowAnyMask, List.mem_map] at hb
      obtain ⟨i, hi, rfl⟩ := hb
      by_contra hbt
      rw [Bool.not_eq_false, List.any_eq_true] at hbt
      obtain ⟨cvals, hcv, hcd⟩ := hbt
      obtain ⟨q, hq, rfl⟩ := List.mem_map.mp hcv
      rw [getD_false_eq_true_iff] at hcd
      have : true ∈ q.2 := List.mem_iff_getElem?.mpr ⟨i, hcd⟩
      exact absurd (hall q hq true this) (by simp)
    rw [applyMask_eq_nil _ idx1 hrm]
    simp

lemma dupMarksAux_all_false :
    ∀ (idx seen : List Cell), idx.Nodup → (∀ k ∈ idx, k ∉ seen) →
      ∀ b ∈ dupMarksAux seen idx, b = false := by
  intro idx
  induction idx with
  | nil => intro seen _ _ b hb; simp [dupMarksAux] at hb
  | cons k ks ih =>
    intro seen hnodup hdisj b hb
    simp only [dupMarksAux, List.mem_cons] at hb
    rcases hb with hb | hb
    · rw [hb]
      simp [hdisj k (List.mem_cons_self k ks)]
    · refine ih (k :: seen) (List.Nodup.of_cons hnodup) ?_ b hb
      intro x hx
      rw [List.mem_cons]
      push_neg
      constructor
      · intro hxk
        subst hxk
        exact absurd hx (List.Nodup.not_mem hnodup)
      · exact hdisj x (List.mem_cons_of_mem _ hx)

lemma duplicate_index_values_nil {df : DF} (h : df.index.Nodup) :
    duplicate_index_values df = [] := by
  refine applyMask_eq_nil _ _ ?_
  exact dupMarksAux_all_false df.index [] h (fun k _ => List.not_mem_nil k)

lemma hldDiffCols_all_false_self (df : DF) (atol rtol : ℚ)
    (hatol : 0 ≤ atol) (hrtol : 0 ≤ rtol)
    (hwf : WF df = true) (hnt : noTextualNulls df = true) :
    ∀ p ∈ hldDiffCols df df atol rtol (diff_columns_shared df df)
        (locPositions df.index (diff_index_values_shared df df))
        (locPositions df.index (diff_index_values_shared df df)),
      ∀ b ∈ p.2, b = false := by
  intro p hp b hb
  obtain ⟨c, hcs, rfl⟩ := List.mem_map.mp hp
  simp only at hb
  rw [List.mem_map] at hb
  obtain ⟨e, he, rfl⟩ := hb
  suffices he2 : e = true by rw [he2]; rfl
  have hcn : c ∈ colNames df :=
    (mem_pySetInter.mp (mem_sortedStrings.mp (by simpa [diff_columns_shared] using hcs))).1
  obtain ⟨q, hq, hq1, hqc⟩ := getColumn_spec df c hcn
  have hwfq := (List.all_eq_true.mp hwf) q hq
  rw [Bool.and_eq_true] at hwfq
  have hlen : q.2.values.length = df.index.length := of_decide_eq_true hwfq.1
  rw [hqc] at he
  by_cases ht : q.2.dtype.isTextual = true
  · rw [if_pos (by rw [ht]; rfl)] at he
    obtain ⟨x, hx, rfl⟩ := zipWith_same_mem _ _ _ he
    have hxv : x ∈ q.2.values := sliceVals_mem_of hlen hx
    have h2 := (List.all_eq_true.mp hnt) q hq
    rw [ht] at h2
    simp only [Bool.not_true, Bool.false_or, List.all_eq_true] at h2
    cases x with
    | null =>
      exfalso
      have := h2 Cell.null hxv
      simp [Cell.isNull] at this
    | num q2 => simp [cellEq]
    | str s => simp [cellEq]
  · rw [if_neg (fun hc => ht (by simpa using hc))] at he
    obtain ⟨x, hx, rfl⟩ := zipWith_same_mem _ _ _ he
    have hxv : x ∈ q.2.values := sliceVals_mem_of hlen hx
    have hdt : q.2.dtype = Dtype.numeric := by
      cases hdd : q.2.dtype
      · rfl
      · rw [hdd] at ht; simp [Dtype.isTextual] at ht
      · rw [hdd] at ht; simp [Dtype.isTextual] at ht
    have hnums : ∀ v ∈ q.2.values, (v.isNull || v.isNum) = true := by
      have h2 := hwfq.2
      rw [hdt] at h2
      exact List.all_eq_true.mp h2
    cases x with
    | null => simp [tolerantNumericCellEq, Cell.isNull]
    | num q2 =>
      simp only [tolerantNumericCellEq, Cell.isNull, Bool.and_self, if_neg Bool.false_ne_true,
        np_isclose, decide_eq_true_eq]
      rw [sub_self, abs_zero]
      exact add_nonneg hatol (mul_nonneg hrtol (abs_nonneg q2))
    | str s =>
      exfalso
      have := hnums (Cell.str s) hxv
      simp [Cell.isNull, Cell.isNum] at this

/-- C3 (amended): for every dataframe without duplicate index values and
without missing values in textual/categorical columns, and any tolerances
`>= 0`, diffing it against an identical copy of itself yields
`are_equal == True` and `value_differences` absent. -/
theorem hld_reflexivity_nodup_no_textual_nulls
    (df : DF) (atol rtol : ℚ) (hatol : 0 ≤ atol) (hrtol : 0 ≤ rtol)
    (hwf : WF df = true) (hnodup : df.index.Nodup) (hnt : noTextualNulls df = true) :
    (HighLevelDiff df df atol rtol).map HLD.are_equal = some true
    ∧ (HighLevelDiff df df atol rtol).map HLD.value_differences = some none := by
  have hvd : hldValueDifferences df df atol rtol = some none := by
    simp only [hldValueDifferences]
    by_cases hguard : (!(diff_columns_shared df df).isEmpty
        && pyAnyCells (diff_index_values_shared df df)) = true
    · rw [if_pos hguard, if_neg (by simp)]
      exact congrArg some
        (hldMinimize_none_of_all_false _ _ _
          (hldDiffCols_all_false_self df atol rtol hatol hrtol hwf hnt))
    · rw [if_neg hguard]
  have hc1 : diff_columns_missing_in_df1 df df = [] := by
    simp only [diff_columns_missing_in_df1, pySetDiff_self, sortedStrings_nil]
  have hc2 : diff_columns_missing_in_df2 df df = [] := by
    simp only [diff_columns_missing_in_df2, pySetDiff_self, sortedStrings_nil]
  have hi1 : diff_index_columns_missing_in_df1 df df = [] := by
    simp only [diff_index_columns_missing_in_df1, pySetDiff_self, sortedNames_nil]
  have hi2 : diff_index_columns_missing_in_df2 df df = [] := by
    simp only [diff_index_columns_missing_in_df2, pySetDiff_self, sortedNames_nil]
  have hv1 : diff_index_values_missing_in_df1 df df = [] := by
    simp only [diff_index_values_missing_in_df1, indexDifference_self]
  have hv2 : diff_index_values_missing_in_df2 df df = [] := by
    simp only [diff_index_values_missing_in_df2, indexDifference_self]
  have hd : duplicate_index_values df = [] := duplicate_index_values_nil hnodup
  constructor
  · simp only [HighLevelDiff, hvd, Option.map_some']
    simp [HLD.are_equal, HLD.are_structurally_equal, HLD.are_overlapping_values_equal,
      hc1, hc2, hi1, hi2, hv1, hv2, hd, pyAnyStrings, pyAnyNames, pyAnyCells]
  · simp [HighLevelDiff, hvd]

/-- C3 witness: the one-row numeric dataframe `dfOneA` diffed against
itself with zero tolerances. -/
theorem hld_reflexivity_nodup_no_textual_nulls_witness :
    (HighLevelDiff dfOneA dfOneA 0 0).map HLD.are_equal = some true
    ∧ (HighLevelDiff dfOneA dfOneA 0 0).map HLD.value_differences = some none :=
  hld_reflexivity_nodup_no_textual_nulls dfOneA 0 0 le_rfl le_rfl (by decide)
    (by decide) (by decide)
